import Mathlib

/-!
Verification development for `proxy_cached.py`, a caching reverse proxy for a
package registry (pub.dev).  The Python source is shallowly embedded below:

* JSON documents become the inductive `Json`; Python `dict` operations
  (`get`, key assignment, iteration order) become association-list operations
  that preserve insertion order, as CPython dicts do.
* The cache directory tree becomes the explicit state `FS` (package
  directories, version directories, files with contents); `os` / `shutil`
  calls (`makedirs`, `os.replace`, `os.remove`, `shutil.rmtree`, `os.listdir`)
  become pure state transformers.
* The upstream HTTP client becomes data: each handler receives the
  `UpstreamResponse` (or `none` for a `requests.RequestException`, i.e. a
  transport failure) that `fetch_upstream` would have produced.  A streamed
  body is its finite list of byte chunks; consumption is tracked by how many
  chunks an iteration has taken, since `requests` streams are consumable
  exactly once and a second `iter_content` resumes after the consumed prefix.
* Disk-write failures are injected through the `Fault` parameter: `Fault.ok`
  (no failure), `Fault.writeFail i` (the `fh.write` call for chunk `i`
  raises), `Fault.renameFail` (`os.replace` raises).
-/

set_option autoImplicit false

namespace PubProxy

/-- A byte string, as a list of byte values. -/
abbrev Bytes := List Nat

/-! ## JSON documents -/

/-- JSON values.  Objects are association lists in insertion order, matching
CPython `dict` semantics (`r.json()` produces such dicts). -/
inductive Json where
  | null
  | bool (b : Bool)
  | num (n : Int)
  | str (s : String)
  | arr (xs : List Json)
  | obj (fields : List (String × Json))

/-- `d.get(key)`: first binding of `key`, if any. -/
def lookupKey : List (String × Json) → String → Option Json
  | [], _ => none
  | (k, v) :: rest, key => if k = key then some v else lookupKey rest key

/-- `d[key] = val`: update in place if the key exists (keeping its position),
otherwise append, matching CPython `dict` assignment. -/
def setKeyList : List (String × Json) → String → Json → List (String × Json)
  | [], key, val => [(key, val)]
  | (k, v) :: rest, key, val =>
    if k = key then (k, val) :: rest else (k, v) :: setKeyList rest key val

/-- Drop every binding of `key` (dicts have at most one). -/
def eraseKeyList (fields : List (String × Json)) (key : String) :
    List (String × Json) :=
  fields.filter (fun kv => !(kv.1 == key))

/-- Python truthiness of a JSON value (`if not ver: continue`). -/
def jsonFalsy : Json → Bool
  | Json.null => true
  | Json.bool b => !b
  | Json.num n => n == 0
  | Json.str s => s == ""
  | Json.arr xs => xs.isEmpty
  | Json.obj fields => fields.isEmpty

/-- The string Flask's `url_for` interpolates for a route value.  Version
values in real metadata are strings; the remaining truthy cases abstract
Python's `str()`. -/
def jsonUrlStr : Json → String
  | Json.str s => s
  | Json.num n => toString n
  | Json.bool b => if b then "True" else "False"
  | _ => ""

/-! ## Filesystem state (the cache directory tree) -/

/-- One file inside a version directory: `{cache}/{pkg}/{ver}/{fname}`. -/
structure CacheFile where
  pkg : String
  ver : String
  fname : String
  content : Bytes

/-- The cache directory tree.  Directory existence is tracked separately from
files because the code tests `os.path.isdir` and `os.makedirs` can leave empty
directories behind. -/
structure FS where
  pkgDirs : List String
  verDirs : List (String × String)
  files : List CacheFile

/-- `os.listdir(version_dir)` restricted to regular files, in listing order. -/
def listVersionDir (fs : FS) (name version : String) : List CacheFile :=
  fs.files.filter (fun f => f.pkg == name && f.ver == version)

/-- `str.endswith(suffix)`, via character lists. -/
def strEndsWith (s suffix : String) : Bool :=
  suffix.data.reverse.isPrefixOf s.data.reverse

/-- `cached_tar_path` (source lines 29-36) as the file it finds: `None` when
the version directory does not exist, else the first listed file whose name
ends in `.tar.gz`. -/
def cachedTarFile (fs : FS) (name version : String) : Option CacheFile :=
  if (name, version) ∈ fs.verDirs then
    (listVersionDir fs name version).find? (fun f => strEndsWith f.fname ".tar.gz")
  else none

/-- The path `cached_tar_path` returns on a hit. -/
def cached_tar_path (cacheD : String) (fs : FS) (name version : String) :
    Option String :=
  (cachedTarFile fs name version).map
    (fun f => cacheD ++ "/" ++ name ++ "/" ++ version ++ "/" ++ f.fname)

/-- `os.makedirs(version_dir, exist_ok=True)`. -/
def makedirs (fs : FS) (name version : String) : FS :=
  { pkgDirs := if name ∈ fs.pkgDirs then fs.pkgDirs else fs.pkgDirs ++ [name],
    verDirs :=
      if (name, version) ∈ fs.verDirs then fs.verDirs
      else fs.verDirs ++ [(name, version)],
    files := fs.files }

/-- `open(path, 'wb')` + writes: truncate any existing file of that name and
create it with `content`. -/
def writeFile (fs : FS) (name version fname : String) (content : Bytes) : FS :=
  { fs with
    files :=
      fs.files.filter
        (fun f => !(f.pkg == name && f.ver == version && f.fname == fname))
      ++ [⟨name, version, fname, content⟩] }

/-- `os.remove(path)` (also the removal half of `os.replace`). -/
def removeFile (fs : FS) (name version fname : String) : FS :=
  { fs with
    files :=
      fs.files.filter
        (fun f => !(f.pkg == name && f.ver == version && f.fname == fname)) }

/-- Content of a named file, if present. -/
def fileContent (fs : FS) (name version fname : String) : Option Bytes :=
  ((fs.files.filter
      (fun f => f.pkg == name && f.ver == version && f.fname == fname)).head?).map
    (fun f => f.content)

/-- `shutil.rmtree(version_dir)`: the version directory and its files go away;
the package directory stays. -/
def rmtreeVersion (fs : FS) (name version : String) : FS :=
  { pkgDirs := fs.pkgDirs,
    verDirs := fs.verDirs.filter (fun d => !(d == (name, version))),
    files := fs.files.filter (fun f => !(f.pkg == name && f.ver == version)) }

/-- `shutil.rmtree(pkg_dir)`: the package directory, all its version
directories and all their files go away. -/
def rmtreePackage (fs : FS) (name : String) : FS :=
  { pkgDirs := fs.pkgDirs.filter (fun d => !(d == name)),
    verDirs := fs.verDirs.filter (fun d => !(d.1 == name)),
    files := fs.files.filter (fun f => !(f.pkg == name)) }

/-- The deterministic final archive name `{name}-{version}.tar.gz`. -/
def archiveFileName (name version : String) : String :=
  name ++ "-" ++ version ++ ".tar.gz"

/-- The temporary name `filename + '.part'`. -/
def tmpFileName (name version : String) : String :=
  archiveFileName name version ++ ".part"

/-- The URL `url_for('package_archive', name=name, version=ver,
_external=True)` builds: the proxy's archive endpoint for (name, version). -/
def proxyArchiveUrl (base name version : String) : String :=
  base ++ "/packages/" ++ name ++ "/versions/" ++ version ++ ".tar.gz"

/-! ## Upstream responses and HTTP responses -/

/-- What `fetch_upstream` hands back on success: status, headers and the body
as its finite list of byte chunks (for a streamed response these are the
chunks `iter_content(chunk_size=8192)` yields; `.content` is their
concatenation).  A transport failure (`requests.RequestException`) is
represented by the handler receiving `none` instead. -/
structure UpstreamResponse where
  status : Nat
  headers : List (String × String)
  chunks : List Bytes

/-- Case-insensitive header lookup with default: `r.headers.get(key, dflt)`
on a `requests.CaseInsensitiveDict`. -/
def getHeaderD (headers : List (String × String)) (key dflt : String) : String :=
  match headers.find? (fun kv => kv.1.toLower == key.toLower) with
  | some kv => kv.2
  | none => dflt

/-- A metadata upstream response: same as `UpstreamResponse` but the handler
reads the buffered body both raw (`r.content`) and parsed (`r.json()`).
`jsonBody = none` models a body that is not valid JSON, where `r.json()`
raises. -/
structure MetaResponse where
  status : Nat
  headers : List (String × String)
  content : Bytes
  jsonBody : Option Json

/-- An HTTP response body: raw bytes, or the JSON document `jsonify` encodes. -/
inductive Body where
  | raw (b : Bytes)
  | json (j : Json)

/-- The response the proxy sends to its client.  `attachment` records whether
it was produced by `send_file(..., as_attachment=True)` (i.e. carries a
`Content-Disposition: attachment` header). -/
structure HttpResponse where
  status : Nat
  headers : List (String × String)
  body : Body
  attachment : Bool

/-- `abort(502)`. -/
def resp502 : HttpResponse :=
  { status := 502, headers := [], body := Body.raw [], attachment := false }

/-- An unhandled Python exception inside a handler: Flask's 500 page. -/
def resp500 : HttpResponse :=
  { status := 500, headers := [], body := Body.raw [], attachment := false }

/-- Pass an upstream response through:
`Response(r.content, status=r.status_code, headers=r.headers.items())`.
Note: ALL upstream headers are forwarded; nothing is stripped here. -/
def passThrough (r : UpstreamResponse) : HttpResponse :=
  { status := r.status, headers := r.headers, body := Body.raw r.chunks.flatten,
    attachment := false }

/-- Same pass-through for a buffered metadata response. -/
def passThroughMeta (r : MetaResponse) : HttpResponse :=
  { status := r.status, headers := r.headers, body := Body.raw r.content,
    attachment := false }

/-! ## Cache population (shared block of `package_archive` lines 100-123 and
`admin_prefetch` lines 158-176; the two blocks are textually identical) -/

/-- Injected disk behaviour for one population attempt. -/
inductive Fault where
  | ok
  | writeFail (i : Nat)
  | renameFail
deriving DecidableEq

/-- The `for chunk in r.iter_content(...)` loop writing to the temp file,
starting at chunk index `i`.  Returns (bytes written so far, number of chunks
consumed from the stream, whether the loop finished without a write error).
`if chunk:` skips empty chunks, so only a non-empty chunk has a `write` call
that can raise; a chunk is pulled from the stream before its write fails. -/
def writeChunksFrom (fault : Fault) : List Bytes → Nat → Bytes × Nat × Bool
  | [], i => ([], i, true)
  | c :: cs, i =>
    if c ≠ [] ∧ fault = Fault.writeFail i then ([], i + 1, false)
    else
      let r := writeChunksFrom fault cs (i + 1)
      (c ++ r.1, r.2.1, r.2.2)

/-- Result of one population attempt: the new filesystem state, how many
chunks of the once-consumable upstream stream were consumed, whether the
`try` block completed (temp written in full and renamed), and whether the
`for chunk in r.iter_content(...)` loop ran to completion.  The last flag is
what `requests` records as `_content_consumed`: it is set exactly when the
iteration finishes normally (so it is true on success and on a rename
failure, false when a chunk write raised mid-loop), and a later
`iter_content` call raises `StreamConsumedError` exactly when it is set. -/
structure PopResult where
  fs : FS
  consumed : Nat
  ok : Bool
  streamDone : Bool

/-- The population block: `os.makedirs(vd, exist_ok=True)`; write the stream
to `tmpname`; `os.replace(tmpname, filename)`.  On any exception the partial
temp file is removed (`os.remove(tmpname)`) and the block reports failure. -/
def populate (fs : FS) (name version : String) (chunks : List Bytes)
    (fault : Fault) : PopResult :=
  let fs1 := makedirs fs name version
  let w := writeChunksFrom fault chunks 0
  if w.2.2 then
    let fs2 := writeFile fs1 name version (tmpFileName name version) w.1
    if fault = Fault.renameFail then
      { fs := removeFile fs2 name version (tmpFileName name version),
        consumed := w.2.1, ok := false, streamDone := true }
    else
      { fs := writeFile (removeFile fs2 name version (tmpFileName name version))
          name version (archiveFileName name version) w.1,
        consumed := w.2.1, ok := true, streamDone := true }
  else
    { fs := removeFile (writeFile fs1 name version (tmpFileName name version) w.1)
        name version (tmpFileName name version),
      consumed := w.2.1, ok := false, streamDone := false }

/-! ## Metadata rewriting -/

/-- The body of the rewrite loop of `api_package` (source lines 60-66) for one
element `v` of `data['versions']`: `ver = v.get('version'); if not ver:
continue; v['archive_url'] = url_for(...)`.  A non-dict element makes
`v.get` raise (`none`). -/
def rewriteEntry (base name : String) (entry : Json) : Option Json :=
  match entry with
  | Json.obj fields =>
    match lookupKey fields "version" with
    | none => some (Json.obj fields)
    | some ver =>
      if jsonFalsy ver then some (Json.obj fields)
      else some (Json.obj (setKeyList fields "archive_url"
        (Json.str (proxyArchiveUrl base name (jsonUrlStr ver)))))
  | _ => none

/-- The rewrite loop over all entries; any raising entry aborts the request. -/
def rewriteEntries (base name : String) : List Json → Option (List Json)
  | [] => some []
  | e :: rest => do
    let e2 ← rewriteEntry base name e
    let r2 ← rewriteEntries base name rest
    pure (e2 :: r2)

/-- The whole-document transformation of `api_package`: iterate over
`data.get('versions', [])` rewriting each entry in place, then return `data`.
A missing `versions` key yields the default `[]`, so the document is returned
unchanged.  Iterating a non-list raises unless it is empty-iterable (an empty
string or empty dict iterates zero times; a non-empty one yields elements on
which `v.get` raises; other values are not iterable). -/
def api_package_json (base name : String) (data : Json) : Option Json :=
  match data with
  | Json.obj fields =>
    match lookupKey fields "versions" with
    | none => some (Json.obj fields)
    | some (Json.arr entries) =>
      match rewriteEntries base name entries with
      | some es => some (Json.obj (setKeyList fields "versions" (Json.arr es)))
      | none => none
    | some (Json.str s) => if s = "" then some (Json.obj fields) else none
    | some (Json.obj o) => if o.isEmpty then some (Json.obj fields) else none
    | some _ => none
  | _ => none

/-! ## Route handlers -/

/-- A handler's outcome: the HTTP response, the cache state afterwards, and
how many upstream requests the handler performed. -/
structure RouteResult where
  resp : HttpResponse
  fs : FS
  upstreamCalls : Nat

/-- `GET /packages/<name>/versions/<version>.tar.gz` (source lines 83-126).
`upstream` is what `fetch_upstream(upstream_path, stream=True)` returns if the
handler gets that far.  On population failure the handler calls
`r.iter_content` again on the same response object: if the first iteration
was abandoned mid-loop (a chunk write raised), the new iterator resumes after
the already-consumed chunks; if the first iteration ran to completion (the
failure was the rename), `requests` raises `StreamConsumedError` eagerly
inside `iter_content`, the exception escapes the handler, and Flask answers
with its 500 error page. -/
def package_archive (cacheD : String) (name version : String)
    (upstream : Option UpstreamResponse) (fault : Fault) (fs : FS) :
    RouteResult :=
  match cachedTarFile fs name version with
  | some f =>
    { resp := { status := 200, headers := [], body := Body.raw f.content,
                attachment := true },
      fs := fs, upstreamCalls := 0 }
  | none =>
    match upstream with
    | none => { resp := resp502, fs := fs, upstreamCalls := 1 }
    | some r =>
      if r.status ≠ 200 then
        { resp := passThrough r, fs := fs, upstreamCalls := 1 }
      else
        let pr := populate fs name version r.chunks fault
        if pr.ok then
          { resp := { status := 200, headers := [],
                      body := Body.raw
                        ((fileContent pr.fs name version
                            (archiveFileName name version)).getD []),
                      attachment := true },
            fs := pr.fs, upstreamCalls := 1 }
        else if pr.streamDone then
          { resp := resp500, fs := pr.fs, upstreamCalls := 1 }
        else
          { resp := { status := 200,
                      headers := [("content-type",
                        getHeaderD r.headers "content-type"
                          "application/octet-stream")],
                      body := Body.raw (r.chunks.drop pr.consumed).flatten,
                      attachment := false },
            fs := pr.fs, upstreamCalls := 1 }

/-- `POST /admin/prefetch/<name>/<version>` (source lines 146-176).
`str(e)` in the error body is abstracted to `""`. -/
def admin_prefetch (cacheD : String) (name version : String)
    (upstream : Option UpstreamResponse) (fault : Fault) (fs : FS) :
    RouteResult :=
  match upstream with
  | none => { resp := resp502, fs := fs, upstreamCalls := 1 }
  | some r =>
    if r.status ≠ 200 then
      { resp := passThrough r, fs := fs, upstreamCalls := 1 }
    else
      let pr := populate fs name version r.chunks fault
      if pr.ok then
        { resp := { status := 200, headers := [],
                    body := Body.json (Json.obj
                      [("status", Json.str "cached"),
                       ("package", Json.str name),
                       ("version", Json.str version),
                       ("path", Json.str (cacheD ++ "/" ++ name ++ "/" ++
                         version ++ "/" ++ archiveFileName name version))]),
                    attachment := false },
          fs := pr.fs, upstreamCalls := 1 }
      else
        { resp := { status := 500, headers := [],
                    body := Body.json (Json.obj
                      [("status", Json.str "error"),
                       ("error", Json.str "")]),
                    attachment := false },
          fs := pr.fs, upstreamCalls := 1 }

/-- `POST|GET /admin/purge/<name>[/<version>]` (source lines 128-144). -/
def admin_purge (name : String) (version : Option String) (fs : FS) :
    HttpResponse × FS :=
  match version with
  | some v =>
    if (name, v) ∈ fs.verDirs then
      ({ status := 200, headers := [],
         body := Body.json (Json.obj
           [("status", Json.str "purged"), ("package", Json.str name),
            ("version", Json.str v)]),
         attachment := false },
       rmtreeVersion fs name v)
    else
      ({ status := 404, headers := [],
         body := Body.json (Json.obj
           [("status", Json.str "not_found"), ("package", Json.str name),
            ("version", Json.str v)]),
         attachment := false },
       fs)
  | none =>
    if name ∈ fs.pkgDirs then
      ({ status := 200, headers := [],
         body := Body.json (Json.obj
           [("status", Json.str "purged"), ("package", Json.str name)]),
         attachment := false },
       rmtreePackage fs name)
    else
      ({ status := 404, headers := [],
         body := Body.json (Json.obj
           [("status", Json.str "not_found"), ("package", Json.str name)]),
         attachment := false },
       fs)

/-- `GET /api/packages/<name>` (source lines 47-67): fetch metadata upstream;
transport failure → 502; non-200 → pass through; 200 → rewrite each version's
`archive_url` and return the document as JSON. -/
def api_package (base name : String) (upstream : Option MetaResponse) :
    HttpResponse :=
  match upstream with
  | none => resp502
  | some r =>
    if r.status ≠ 200 then passThroughMeta r
    else
      match r.jsonBody with
      | none => resp500
      | some data =>
        match api_package_json base name data with
        | none => resp500
        | some out =>
          { status := 200, headers := [], body := Body.json out,
            attachment := false }

/-- `GET /api/packages/<name>/versions/<version>.json` (source lines 69-81):
on a 200 JSON object, `data['archive_url'] = url_for(...)` unconditionally,
then return the document.  Key assignment on a non-dict raises. -/
def api_package_version (base name version : String)
    (upstream : Option MetaResponse) : HttpResponse :=
  match upstream with
  | none => resp502
  | some r =>
    if r.status ≠ 200 then passThroughMeta r
    else
      match r.jsonBody with
      | none => resp500
      | some (Json.obj fields) =>
        { status := 200, headers := [],
          body := Body.json (Json.obj (setKeyList fields "archive_url"
            (Json.str (proxyArchiveUrl base name version)))),
          attachment := false }
      | some _ => resp500

/-! ## Generic fallback proxy -/

/-- The inbound request the fallback route replays. -/
structure InboundRequest where
  method : String
  headers : List (String × String)
  params : List (String × String)
  body : Bytes

/-- The request `proxy_fallback` sends upstream (source lines 182-185): same
method, query parameters and body; inbound headers minus `host`
(case-insensitively). -/
structure UpstreamCall where
  path : String
  method : String
  headers : List (String × String)
  params : List (String × String)
  body : Bytes

/-- The upstream request the fallback handler constructs. -/
def fallbackCall (path : String) (req : InboundRequest) : UpstreamCall :=
  { path := "/" ++ path,
    method := req.method,
    headers := req.headers.filter (fun kv => !(kv.1.toLower == "host")),
    params := req.params,
    body := req.body }

/-- `GET|... /<path>` fallback (source lines 178-191): relay the upstream
status and body, dropping `content-encoding`, `transfer-encoding` and
`connection` from the response headers and keeping the rest. -/
def proxy_fallback (path : String) (req : InboundRequest)
    (upstream : Option UpstreamResponse) : HttpResponse :=
  match upstream with
  | none => resp502
  | some r =>
    { status := r.status,
      headers := r.headers.filter (fun kv =>
        !(["content-encoding", "transfer-encoding", "connection"].contains
          kv.1.toLower)),
      body := Body.raw r.chunks.flatten,
      attachment := false }

/-! ## Derived notions used by the specifications -/

/-- All final archive files (`*.tar.gz`) stored under a key.  The spec's
"cache entry present" means this (together with the directory check) is
non-empty; `.part` temp files do not count. -/
def tarFiles (fs : FS) (name version : String) : List CacheFile :=
  fs.files.filter
    (fun f => f.pkg == name && f.ver == version &&
      strEndsWith f.fname ".tar.gz")

/-- The archive link of a version entry (its `archive_url` field). -/
def entryArchive : Json → Option Json
  | Json.obj fields => lookupKey fields "archive_url"
  | _ => none

/-- A version entry with its archive link removed: what "all other fields"
of an entry means in the deep-equality-minus-the-rewritten-field check. -/
def eraseEntryArchive : Json → Json
  | Json.obj fields => Json.obj (eraseKeyList fields "archive_url")
  | e => e

/-! ## Helper lemmas -/

theorem strEndsWith_part_gz (s : String) :
    strEndsWith (s ++ ".part") ".tar.gz" = false := by
  unfold strEndsWith
  rw [String.data_append, List.reverse_append]
  rfl

theorem isPrefixOf_append_self (l₁ l₂ : List Char) :
    l₁.isPrefixOf (l₁ ++ l₂) = true := by
  rw [List.isPrefixOf_iff_prefix]
  exact List.prefix_append _ _

theorem strEndsWith_archive_gz (name version : String) :
    strEndsWith (archiveFileName name version) ".tar.gz" = true := by
  unfold strEndsWith archiveFileName
  simp only [String.data_append, List.reverse_append, List.append_assoc]
  exact isPrefixOf_append_self _ _

theorem lookupKey_setKeyList_self (fields : List (String × Json))
    (key : String) (val : Json) :
    lookupKey (setKeyList fields key val) key = some val := by
  induction fields with
  | nil => simp [setKeyList, lookupKey]
  | cons kv rest ih =>
    by_cases h : kv.1 = key <;> simp [setKeyList, lookupKey, h, ih]

theorem eraseKeyList_setKeyList (fields : List (String × Json))
    (key : String) (val : Json) :
    eraseKeyList (setKeyList fields key val) key = eraseKeyList fields key := by
  induction fields with
  | nil => simp [setKeyList, eraseKeyList, List.filter_cons]
  | cons kv rest ih =>
    by_cases h : kv.1 = key <;>
      simp_all [setKeyList, eraseKeyList, List.filter_cons]

theorem filter_not_self {α} (p : α → Bool) (l : List α) :
    (l.filter (fun x => !(p x))).filter p = [] := by
  rw [List.filter_filter]
  have : (fun a => p a && !(p a)) = fun _ => false := by
    funext a; cases p a <;> rfl
  simp [this]

theorem filter_not_idem {α} (p : α → Bool) (l : List α) :
    (l.filter (fun x => !(p x))).filter (fun x => !(p x)) =
      l.filter (fun x => !(p x)) := by
  rw [List.filter_filter]
  apply List.filter_congr
  intro a _
  cases p a <;> rfl

theorem filter_not_of_disjoint {α} (q r : α → Bool)
    (h : ∀ x, r x = true → q x = false) (l : List α) :
    (l.filter (fun x => !(q x))).filter r = l.filter r := by
  induction l with
  | nil => rfl
  | cons x xs ih =>
    by_cases hr : r x = true
    · have hq := h x hr
      simp [List.filter, hq, hr, ih]
    · simp only [Bool.not_eq_true] at hr
      cases hq : q x <;> simp [List.filter, hq, hr, ih]

theorem head_filter_append_single {α} (p : α → Bool) (l : List α) (a : α)
    (ha : p a = true) :
    ((l.filter (fun x => !(p x)) ++ [a]).filter p).head? = some a := by
  rw [List.filter_append, filter_not_self]
  simp [List.filter, ha]

theorem fileContent_writeFile_self (fs : FS) (name version fname : String)
    (content : Bytes) :
    fileContent (writeFile fs name version fname content) name version fname =
      some content := by
  unfold fileContent writeFile
  rw [head_filter_append_single]
  · rfl
  · simp

theorem fileContent_removeFile_self (fs : FS) (name version fname : String) :
    fileContent (removeFile fs name version fname) name version fname =
      none := by
  unfold fileContent removeFile
  rw [filter_not_self]
  rfl

theorem removeFile_writeFile_self (fs : FS) (name version fname : String)
    (content : Bytes) :
    removeFile (writeFile fs name version fname content) name version fname =
      removeFile fs name version fname := by
  unfold removeFile writeFile
  simp only [List.filter_append, filter_not_idem]
  simp [List.filter_cons]

/-- With no fault, the write loop consumes and writes everything. -/
theorem writeChunksFrom_ok (chunks : List Bytes) (i : Nat) :
    writeChunksFrom Fault.ok chunks i = (chunks.flatten, i + chunks.length, true) := by
  induction chunks generalizing i with
  | nil => simp [writeChunksFrom]
  | cons c cs ih => simp [writeChunksFrom, ih, List.flatten_cons]; omega

/-- Whenever the write loop finishes, it has written the concatenation of all
chunks and consumed the whole stream. -/
theorem writeChunksFrom_true (fault : Fault) (chunks : List Bytes) (i : Nat)
    (h : (writeChunksFrom fault chunks i).2.2 = true) :
    (writeChunksFrom fault chunks i).1 = chunks.flatten ∧
      (writeChunksFrom fault chunks i).2.1 = i + chunks.length := by
  induction chunks generalizing i with
  | nil => simp [writeChunksFrom]
  | cons c cs ih =>
    by_cases hc : c ≠ [] ∧ fault = Fault.writeFail i
    · simp [writeChunksFrom, hc] at h
    · simp only [writeChunksFrom, if_neg hc] at h ⊢
      have := ih (i + 1) h
      simp [List.flatten_cons, this.1, this.2]
      omega

/-- Normal form of the filesystem after a failed population: only the
`makedirs` survives, with any pre-existing temp file removed. -/
theorem populate_fail_fs (fs : FS) (name version : String)
    (chunks : List Bytes) (fault : Fault)
    (h : (populate fs name version chunks fault).ok = false) :
    (populate fs name version chunks fault).fs =
      removeFile (makedirs fs name version) name version
        (tmpFileName name version) := by
  unfold populate at h ⊢
  by_cases hw : (writeChunksFrom fault chunks 0).2.2 = true
  · by_cases hf : fault = Fault.renameFail
    · subst hf
      simp only [hw, if_true, reduceIte]
      exact removeFile_writeFile_self _ _ _ _ _
    · simp [hw, hf] at h
  · simp only [Bool.not_eq_true] at hw
    simp only [hw, Bool.false_eq_true, if_false]
    exact removeFile_writeFile_self _ _ _ _ _

/-- Normal form of the filesystem after a successful population, and the fact
that the rename happened only after the whole stream was consumed. -/
theorem populate_ok_fs (fs : FS) (name version : String)
    (chunks : List Bytes) (fault : Fault)
    (h : (populate fs name version chunks fault).ok = true) :
    (populate fs name version chunks fault).fs =
      writeFile (removeFile (makedirs fs name version) name version
          (tmpFileName name version))
        name version (archiveFileName name version) chunks.flatten ∧
    (populate fs name version chunks fault).consumed = chunks.length := by
  unfold populate at h ⊢
  by_cases hw : (writeChunksFrom fault chunks 0).2.2 = true
  · have hww := writeChunksFrom_true fault chunks 0 hw
    by_cases hf : fault = Fault.renameFail
    · subst hf
      simp [hw] at h
    · simp only [hw, if_true, hf, if_neg, not_false_eq_true]
      rw [removeFile_writeFile_self]
      simp [hww.1, hww.2]
  · simp only [Bool.not_eq_true] at hw
    simp [hw] at h

theorem mem_verDirs_makedirs (fs : FS) (name version : String) :
    (name, version) ∈ (makedirs fs name version).verDirs := by
  unfold makedirs
  by_cases h : (name, version) ∈ fs.verDirs <;> simp [h]

theorem tarFiles_makedirs (fs : FS) (name version : String) :
    tarFiles (makedirs fs name version) name version =
      tarFiles fs name version := rfl

theorem tarFiles_removeFile_tmp (fs : FS) (name version : String) :
    tarFiles (removeFile fs name version (tmpFileName name version))
        name version =
      tarFiles fs name version := by
  unfold tarFiles removeFile
  apply filter_not_of_disjoint
  intro x hx
  simp only [Bool.and_eq_true, beq_iff_eq] at hx
  have hne : x.fname ≠ tmpFileName name version := by
    intro he
    have := hx.2
    rw [he, tmpFileName, strEndsWith_part_gz] at this
    exact Bool.false_ne_true this
  simp [hx.1.1, hx.1.2, hne]

theorem cachedTarFile_of_tarFiles_nil (fs : FS) (name version : String)
    (h : tarFiles fs name version = []) :
    cachedTarFile fs name version = none := by
  unfold cachedTarFile
  by_cases hd : (name, version) ∈ fs.verDirs
  · rw [if_pos hd, List.find?_eq_none]
    intro x hx hends
    unfold listVersionDir at hx
    rw [List.mem_filter] at hx
    have : x ∈ tarFiles fs name version := by
      unfold tarFiles
      rw [List.mem_filter]
      exact ⟨hx.1, by simp only [Bool.and_eq_true]; exact ⟨by simpa using hx.2, hends⟩⟩
    rw [h] at this
    exact absurd this (List.not_mem_nil x)
  · rw [if_neg hd]

theorem cachedTarFile_after_write (fs : FS) (name version : String)
    (b : Bytes) (h : tarFiles fs name version = []) :
    cachedTarFile
        (writeFile (removeFile (makedirs fs name version) name version
            (tmpFileName name version))
          name version (archiveFileName name version) b)
        name version =
      some ⟨name, version, archiveFileName name version, b⟩ := by
  unfold cachedTarFile
  rw [if_pos (by exact mem_verDirs_makedirs fs name version)]
  unfold listVersionDir writeFile removeFile makedirs
  simp only [List.filter_append, List.find?_append]
  have hfin : (List.filter
      (fun f : CacheFile => f.pkg == name && f.ver == version)
      [⟨name, version, archiveFileName name version, b⟩]) =
      [⟨name, version, archiveFileName name version, b⟩] := by
    simp [List.filter_cons]
  rw [hfin]
  have hnone : List.find? (fun f : CacheFile => strEndsWith f.fname ".tar.gz")
      (List.filter (fun f : CacheFile => f.pkg == name && f.ver == version)
        (List.filter
          (fun f : CacheFile =>
            !(f.pkg == name && f.ver == version &&
              f.fname == archiveFileName name version))
          (List.filter
            (fun f : CacheFile =>
              !(f.pkg == name && f.ver == version &&
                f.fname == tmpFileName name version))
            fs.files))) = none := by
    rw [List.find?_eq_none]
    intro x hx hends
    rw [List.mem_filter, List.mem_filter, List.mem_filter] at hx
    have : x ∈ tarFiles fs name version := by
      unfold tarFiles
      rw [List.mem_filter]
      refine ⟨hx.1.1.1, ?_⟩
      simp only [Bool.and_eq_true]
      exact ⟨by simpa using hx.2, hends⟩
    rw [h] at this
    exact absurd this (List.not_mem_nil x)
  rw [hnone]
  simp [List.find?, strEndsWith_archive_gz]

/-! ## Claims -/

/-- Claim C1: every cache population (the archive handler on a miss and the
prefetch handler both run the `populate` block) writes the archive bytes to a
temporary file and renames it to `{name}-{version}.tar.gz` only after the
upstream stream is fully consumed; if any write or the rename fails, the
temporary file is removed, the set of final archive files for the key is
unchanged, and — the key having been uncached — the cache entry remains
absent. -/
theorem populate_atomic (cacheD name version : String) (chunks : List Bytes)
    (fault : Fault) (fs : FS) :
    ((populate fs name version chunks fault).ok = true →
      (populate fs name version chunks fault).consumed = chunks.length ∧
      fileContent (populate fs name version chunks fault).fs name version
        (archiveFileName name version) = some chunks.flatten)
    ∧ ((populate fs name version chunks fault).ok = false →
      fileContent (populate fs name version chunks fault).fs name version
          (tmpFileName name version) = none
      ∧ tarFiles (populate fs name version chunks fault).fs name version =
          tarFiles fs name version
      ∧ (tarFiles fs name version = [] →
          cachedTarFile (populate fs name version chunks fault).fs
            name version = none))
    ∧ (∀ r : UpstreamResponse, r.status = 200 →
        cachedTarFile fs name version = none →
        (package_archive cacheD name version (some r) fault fs).fs =
          (populate fs name version r.chunks fault).fs)
    ∧ (∀ r : UpstreamResponse, r.status = 200 →
        (admin_prefetch cacheD name version (some r) fault fs).fs =
          (populate fs name version r.chunks fault).fs) := by
  refine ⟨fun hok => ?_, fun hfail => ?_, fun r hs hmiss => ?_, fun r hs => ?_⟩
  · obtain ⟨hfs, hcons⟩ := populate_ok_fs fs name version chunks fault hok
    rw [hfs, hcons]
    exact ⟨rfl, fileContent_writeFile_self _ _ _ _ _⟩
  · have hfs := populate_fail_fs fs name version chunks fault hfail
    rw [hfs]
    have htar : tarFiles (removeFile (makedirs fs name version) name version
        (tmpFileName name version)) name version = tarFiles fs name version := by
      rw [tarFiles_removeFile_tmp, tarFiles_makedirs]
    refine ⟨fileContent_removeFile_self _ _ _ _, htar, fun hnil => ?_⟩
    exact cachedTarFile_of_tarFiles_nil _ _ _ (htar.trans hnil)
  · simp only [package_archive, hmiss, hs]
    rw [if_neg (by simp : ¬((200 : Nat) ≠ 200))]
    split <;> first | rfl | (split <;> rfl)
  · simp only [admin_prefetch, hs]
    rw [if_neg (by simp : ¬((200 : Nat) ≠ 200))]
    split <;> rfl

/-- Witness for C1 at a concrete input: a rename failure on a two-chunk
stream over the empty cache. -/
theorem populate_atomic_witness :
    ((populate ⟨[], [], []⟩ "pkg" "1.0.0" [[1], [2]] Fault.renameFail).ok = true →
      (populate ⟨[], [], []⟩ "pkg" "1.0.0" [[1], [2]] Fault.renameFail).consumed =
        ([[1], [2]] : List Bytes).length ∧
      fileContent (populate ⟨[], [], []⟩ "pkg" "1.0.0" [[1], [2]]
          Fault.renameFail).fs "pkg" "1.0.0"
        (archiveFileName "pkg" "1.0.0") = some ([[1], [2]] : List Bytes).flatten)
    ∧ ((populate ⟨[], [], []⟩ "pkg" "1.0.0" [[1], [2]] Fault.renameFail).ok = false →
      fileContent (populate ⟨[], [], []⟩ "pkg" "1.0.0" [[1], [2]]
          Fault.renameFail).fs "pkg" "1.0.0" (tmpFileName "pkg" "1.0.0") = none
      ∧ tarFiles (populate ⟨[], [], []⟩ "pkg" "1.0.0" [[1], [2]]
          Fault.renameFail).fs "pkg" "1.0.0" = tarFiles ⟨[], [], []⟩ "pkg" "1.0.0"
      ∧ (tarFiles (⟨[], [], []⟩ : FS) "pkg" "1.0.0" = [] →
          cachedTarFile (populate ⟨[], [], []⟩ "pkg" "1.0.0" [[1], [2]]
            Fault.renameFail).fs "pkg" "1.0.0" = none))
    ∧ (∀ r : UpstreamResponse, r.status = 200 →
        cachedTarFile (⟨[], [], []⟩ : FS) "pkg" "1.0.0" = none →
        (package_archive "/cache" "pkg" "1.0.0" (some r) Fault.renameFail
            ⟨[], [], []⟩).fs =
          (populate ⟨[], [], []⟩ "pkg" "1.0.0" r.chunks Fault.renameFail).fs)
    ∧ (∀ r : UpstreamResponse, r.status = 200 →
        (admin_prefetch "/cache" "pkg" "1.0.0" (some r) Fault.renameFail
            ⟨[], [], []⟩).fs =
          (populate ⟨[], [], []⟩ "pkg" "1.0.0" r.chunks Fault.renameFail).fs) :=
  populate_atomic "/cache" "pkg" "1.0.0" [[1], [2]] Fault.renameFail ⟨[], [], []⟩

/-- Claim C2 (code bug): when the upstream returned 200 but writing the cache
entry fails, the handler is supposed to relay the complete archive payload to
the client; in fact it calls `iter_content` again on the once-consumable
upstream stream.  After a mid-write failure the new iterator resumes after
the chunks already consumed by the failed write, so the client receives only
a strict suffix of the body; after a rename failure the stream was fully
consumed, the second `iter_content` raises `StreamConsumedError`, and the
client receives Flask's 500 error page instead of any archive bytes.
Evaluation at the failing input: a two-chunk body `[[1],[2]]` whose first
chunk's disk write fails yields relayed body `[2]`, not the full payload
`[1,2]`; the same request with a rename failure yields the 500 response. -/
theorem archive_relay_drops_consumed_bytes :
    (package_archive "/cache" "pkg" "1.0.0"
        (some ⟨200, [], [[1], [2]]⟩) (Fault.writeFail 0) ⟨[], [], []⟩).resp.body =
      Body.raw [2]
    ∧ ([2] : Bytes) ≠ ([[1], [2]] : List Bytes).flatten
    ∧ (package_archive "/cache" "pkg" "1.0.0"
        (some ⟨200, [], [[1], [2]]⟩) Fault.renameFail ⟨[], [], []⟩).resp =
      resp500 :=
  ⟨rfl, by decide, rfl⟩

/-- With no injected fault, population succeeds. -/
theorem populate_fault_ok (fs : FS) (name version : String)
    (chunks : List Bytes) :
    (populate fs name version chunks Fault.ok).ok = true := by
  unfold populate
  rw [writeChunksFrom_ok]
  simp

/-- Claim C3 (counterexample): a 2xx-but-not-200 upstream status (201, here
with a `connection` header) is NOT populated into the cache: the handler
passes status, body and ALL headers (including connection-management ones)
through and leaves the filesystem untouched, contradicting the claim that
every 2xx response is cached and that connection-management headers are
stripped. -/
theorem archive_201_not_cached :
    (package_archive "/cache" "pkg" "1.0.0"
        (some ⟨201, [("connection", "close")], [[7]]⟩) Fault.ok
        ⟨[], [], []⟩).resp.status = 201
    ∧ (package_archive "/cache" "pkg" "1.0.0"
        (some ⟨201, [("connection", "close")], [[7]]⟩) Fault.ok
        ⟨[], [], []⟩).resp.headers = [("connection", "close")]
    ∧ (package_archive "/cache" "pkg" "1.0.0"
        (some ⟨201, [("connection", "close")], [[7]]⟩) Fault.ok
        ⟨[], [], []⟩).resp.body = Body.raw [7]
    ∧ (package_archive "/cache" "pkg" "1.0.0"
        (some ⟨201, [("connection", "close")], [[7]]⟩) Fault.ok
        ⟨[], [], []⟩).fs = (⟨[], [], []⟩ : FS) :=
  ⟨rfl, rfl, rfl, rfl⟩

/-- Claim C3 (amended): on a cache miss, an upstream status other than
exactly 200 (not: any non-2xx) is passed through verbatim — status, body and
ALL headers, with no connection-management stripping — and no cache entry is
created; a status of exactly 200 populates the archive store with the
response's byte stream and (when the disk write succeeds) serves the
now-cached file. -/
theorem archive_miss_dispatch (cacheD name version : String)
    (r : UpstreamResponse) (fault : Fault) (fs : FS)
    (hmiss : cachedTarFile fs name version = none)
    (hclean : tarFiles fs name version = []) :
    (r.status ≠ 200 →
      (package_archive cacheD name version (some r) fault fs).resp.status =
          r.status
      ∧ (package_archive cacheD name version (some r) fault fs).resp.headers =
          r.headers
      ∧ (package_archive cacheD name version (some r) fault fs).resp.body =
          Body.raw r.chunks.flatten
      ∧ (package_archive cacheD name version (some r) fault fs).fs = fs)
    ∧ (r.status = 200 → fault = Fault.ok →
      (package_archive cacheD name version (some r) fault fs).resp.status = 200
      ∧ (package_archive cacheD name version (some r) fault fs).resp.attachment
          = true
      ∧ (package_archive cacheD name version (some r) fault fs).resp.body =
          Body.raw r.chunks.flatten
      ∧ cachedTarFile (package_archive cacheD name version (some r) fault fs).fs
          name version =
          some ⟨name, version, archiveFileName name version,
            r.chunks.flatten⟩) := by
  constructor
  · intro hne
    simp only [package_archive, hmiss]
    rw [if_pos hne]
    exact ⟨rfl, rfl, rfl, rfl⟩
  · intro hs hf
    subst hf
    have hok := populate_fault_ok fs name version r.chunks
    obtain ⟨hfs, _⟩ := populate_ok_fs fs name version r.chunks Fault.ok hok
    simp only [package_archive, hmiss, hs]
    rw [if_neg (by simp : ¬((200 : Nat) ≠ 200))]
    rw [if_pos hok]
    refine ⟨rfl, rfl, ?_, ?_⟩
    · show Body.raw ((fileContent (populate fs name version r.chunks
        Fault.ok).fs name version (archiveFileName name version)).getD []) = _
      rw [hfs, fileContent_writeFile_self]
      rfl
    · show cachedTarFile (populate fs name version r.chunks Fault.ok).fs
        name version = _
      rw [hfs]
      exact cachedTarFile_after_write fs name version r.chunks.flatten hclean

/-- Witness for C3 (amended) at concrete inputs: a 404 passthrough and a 200
populate over the empty cache. -/
theorem archive_miss_dispatch_witness :
    ((404 : Nat) ≠ 200
      ∧ (package_archive "/cache" "pkg" "1.0.0"
          (some ⟨404, [("x", "y")], [[9]]⟩) Fault.ok ⟨[], [], []⟩).resp.status =
        404)
    ∧ ((package_archive "/cache" "pkg" "1.0.0"
          (some ⟨200, [], [[1], [2]]⟩) Fault.ok ⟨[], [], []⟩).resp.body =
        Body.raw [1, 2]
      ∧ cachedTarFile (package_archive "/cache" "pkg" "1.0.0"
          (some ⟨200, [], [[1], [2]]⟩) Fault.ok ⟨[], [], []⟩).fs
          "pkg" "1.0.0" =
        some ⟨"pkg", "1.0.0", archiveFileName "pkg" "1.0.0", [1, 2]⟩) := by
  constructor
  · exact ⟨by decide,
      ((archive_miss_dispatch "/cache" "pkg" "1.0.0" ⟨404, [("x", "y")], [[9]]⟩
        Fault.ok ⟨[], [], []⟩ rfl rfl).1 (by decide)).1⟩
  · have h := (archive_miss_dispatch "/cache" "pkg" "1.0.0"
      ⟨200, [], [[1], [2]]⟩ Fault.ok ⟨[], [], []⟩ rfl rfl).2 rfl rfl
    exact ⟨h.2.2.1, h.2.2.2⟩

/-- Claim C5 (counterexample): "purging when the key is not cached returns
not-found with 404" fails: a version directory left empty by a failed
populate is NOT cached (`cached_tar_path` finds nothing), yet purging it
returns `purged` with HTTP 200, because the handler tests directory
existence, not cachedness. -/
theorem purge_empty_dir_reports_purged :
    cachedTarFile (⟨["pkg"], [("pkg", "1.0.0")], []⟩ : FS) "pkg" "1.0.0" = none
    ∧ (admin_purge "pkg" (some "1.0.0")
        ⟨["pkg"], [("pkg", "1.0.0")], []⟩).1.status = 200
    ∧ (admin_purge "pkg" (some "1.0.0")
        ⟨["pkg"], [("pkg", "1.0.0")], []⟩).1.body =
      Body.json (Json.obj [("status", Json.str "purged"),
        ("package", Json.str "pkg"), ("version", Json.str "1.0.0")]) := by
  refine ⟨?_, ?_, ?_⟩ <;> rfl

/-- Claim C5 (amended): purging keys on directory existence, not cachedness:
purging a (name, version) whose version directory does not exist returns
not-found with HTTP 404 and leaves the state unchanged (so every repetition
also returns 404); purging one whose directory exists (cached, or an empty
leftover directory) deletes it and returns purged; a second purge of the same
key always returns 404, never any other failure.  The same holds for
whole-package purge keyed on the package directory. -/
theorem purge_idempotent (name v : String) (fs : FS) :
    ((admin_purge name (some v) fs).1.status =
        if (name, v) ∈ fs.verDirs then 200 else 404)
    ∧ ((name, v) ∉ fs.verDirs →
        (admin_purge name (some v) fs).1.body =
          Body.json (Json.obj [("status", Json.str "not_found"),
            ("package", Json.str name), ("version", Json.str v)])
        ∧ (admin_purge name (some v) fs).2 = fs)
    ∧ ((name, v) ∈ fs.verDirs →
        (admin_purge name (some v) fs).1.body =
          Body.json (Json.obj [("status", Json.str "purged"),
            ("package", Json.str name), ("version", Json.str v)]))
    ∧ (admin_purge name (some v) (admin_purge name (some v) fs).2).1.status =
        404
    ∧ ((admin_purge name none fs).1.status =
        if name ∈ fs.pkgDirs then 200 else 404)
    ∧ (name ∉ fs.pkgDirs → (admin_purge name none fs).2 = fs)
    ∧ (admin_purge name none (admin_purge name none fs).2).1.status = 404 := by
  by_cases hd : (name, v) ∈ fs.verDirs <;>
    by_cases hp : name ∈ fs.pkgDirs <;>
      refine ⟨?_, fun hnd => ?_, fun hd2 => ?_, ?_, ?_, fun hnp => ?_, ?_⟩ <;>
        simp_all [admin_purge, rmtreeVersion, rmtreePackage, List.mem_filter]

/-- Witness for C5 (amended): purge twice on a concretely cached version and
on an absent one. -/
theorem purge_idempotent_witness :
    ((admin_purge "pkg" (some "1.0.0")
        ⟨["pkg"], [("pkg", "1.0.0")],
          [⟨"pkg", "1.0.0", "pkg-1.0.0.tar.gz", [5]⟩]⟩).1.status =
      if ("pkg", "1.0.0") ∈ [("pkg", "1.0.0")] then 200 else 404)
    ∧ (("pkg", "1.0.0") ∉ [("pkg", "1.0.0")] →
        (admin_purge "pkg" (some "1.0.0")
          ⟨["pkg"], [("pkg", "1.0.0")],
            [⟨"pkg", "1.0.0", "pkg-1.0.0.tar.gz", [5]⟩]⟩).1.body =
          Body.json (Json.obj [("status", Json.str "not_found"),
            ("package", Json.str "pkg"), ("version", Json.str "1.0.0")])
        ∧ (admin_purge "pkg" (some "1.0.0")
            ⟨["pkg"], [("pkg", "1.0.0")],
              [⟨"pkg", "1.0.0", "pkg-1.0.0.tar.gz", [5]⟩]⟩).2 =
          ⟨["pkg"], [("pkg", "1.0.0")],
            [⟨"pkg", "1.0.0", "pkg-1.0.0.tar.gz", [5]⟩]⟩)
    ∧ (("pkg", "1.0.0") ∈ [("pkg", "1.0.0")] →
        (admin_purge "pkg" (some "1.0.0")
          ⟨["pkg"], [("pkg", "1.0.0")],
            [⟨"pkg", "1.0.0", "pkg-1.0.0.tar.gz", [5]⟩]⟩).1.body =
          Body.json (Json.obj [("status", Json.str "purged"),
            ("package", Json.str "pkg"), ("version", Json.str "1.0.0")]))
    ∧ (admin_purge "pkg" (some "1.0.0")
        (admin_purge "pkg" (some "1.0.0")
          ⟨["pkg"], [("pkg", "1.0.0")],
            [⟨"pkg", "1.0.0", "pkg-1.0.0.tar.gz", [5]⟩]⟩).2).1.status = 404
    ∧ ((admin_purge "pkg" none
        ⟨["pkg"], [("pkg", "1.0.0")],
          [⟨"pkg", "1.0.0", "pkg-1.0.0.tar.gz", [5]⟩]⟩).1.status =
      if "pkg" ∈ ["pkg"] then 200 else 404)
    ∧ ("pkg" ∉ ["pkg"] →
        (admin_purge "pkg" none
          ⟨["pkg"], [("pkg", "1.0.0")],
            [⟨"pkg", "1.0.0", "pkg-1.0.0.tar.gz", [5]⟩]⟩).2 =
        ⟨["pkg"], [("pkg", "1.0.0")],
          [⟨"pkg", "1.0.0", "pkg-1.0.0.tar.gz", [5]⟩]⟩)
    ∧ (admin_purge "pkg" none
        (admin_purge "pkg" none
          ⟨["pkg"], [("pkg", "1.0.0")],
            [⟨"pkg", "1.0.0", "pkg-1.0.0.tar.gz", [5]⟩]⟩).2).1.status = 404 :=
  purge_idempotent "pkg" "1.0.0"
    ⟨["pkg"], [("pkg", "1.0.0")], [⟨"pkg", "1.0.0", "pkg-1.0.0.tar.gz", [5]⟩]⟩

/-- Claim C6: prefetch never consults the cache: for every current state it
performs exactly one upstream download (no short-circuit), overwrites the
key's archive file with the newly downloaded bytes, and on success returns
status `cached` together with the final cache path. -/
theorem prefetch_forces_repopulate (cacheD name version : String)
    (r : UpstreamResponse) (fs : FS) (hs : r.status = 200) :
    (admin_prefetch cacheD name version (some r) Fault.ok fs).upstreamCalls = 1
    ∧ fileContent (admin_prefetch cacheD name version (some r) Fault.ok fs).fs
        name version (archiveFileName name version) = some r.chunks.flatten
    ∧ (admin_prefetch cacheD name version (some r) Fault.ok fs).resp.status =
        200
    ∧ (admin_prefetch cacheD name version (some r) Fault.ok fs).resp.body =
        Body.json (Json.obj [("status", Json.str "cached"),
          ("package", Json.str name), ("version", Json.str version),
          ("path", Json.str (cacheD ++ "/" ++ name ++ "/" ++ version ++ "/" ++
            archiveFileName name version))]) := by
  have hok := populate_fault_ok fs name version r.chunks
  obtain ⟨hfs, _⟩ := populate_ok_fs fs name version r.chunks Fault.ok hok
  simp only [admin_prefetch, hs]
  rw [if_neg (by simp : ¬((200 : Nat) ≠ 200)), if_pos hok]
  refine ⟨rfl, ?_, rfl, rfl⟩
  show fileContent (populate fs name version r.chunks Fault.ok).fs
    name version (archiveFileName name version) = _
  rw [hfs, fileContent_writeFile_self]

/-- Witness for C6: prefetching a version already cached with sentinel byte 9
re-downloads and overwrites it with the new payload [1,2]. -/
theorem prefetch_forces_repopulate_witness :
    (admin_prefetch "/cache" "pkg" "1.0.0" (some ⟨200, [], [[1], [2]]⟩)
        Fault.ok ⟨["pkg"], [("pkg", "1.0.0")],
          [⟨"pkg", "1.0.0", "pkg-1.0.0.tar.gz", [9]⟩]⟩).upstreamCalls = 1
    ∧ fileContent (admin_prefetch "/cache" "pkg" "1.0.0"
        (some ⟨200, [], [[1], [2]]⟩) Fault.ok
        ⟨["pkg"], [("pkg", "1.0.0")],
          [⟨"pkg", "1.0.0", "pkg-1.0.0.tar.gz", [9]⟩]⟩).fs
        "pkg" "1.0.0" (archiveFileName "pkg" "1.0.0") =
      some ([[1], [2]] : List Bytes).flatten
    ∧ (admin_prefetch "/cache" "pkg" "1.0.0" (some ⟨200, [], [[1], [2]]⟩)
        Fault.ok ⟨["pkg"], [("pkg", "1.0.0")],
          [⟨"pkg", "1.0.0", "pkg-1.0.0.tar.gz", [9]⟩]⟩).resp.status = 200
    ∧ (admin_prefetch "/cache" "pkg" "1.0.0" (some ⟨200, [], [[1], [2]]⟩)
        Fault.ok ⟨["pkg"], [("pkg", "1.0.0")],
          [⟨"pkg", "1.0.0", "pkg-1.0.0.tar.gz", [9]⟩]⟩).resp.body =
      Body.json (Json.obj [("status", Json.str "cached"),
        ("package", Json.str "pkg"), ("version", Json.str "1.0.0"),
        ("path", Json.str ("/cache" ++ "/" ++ "pkg" ++ "/" ++ "1.0.0" ++ "/" ++
          archiveFileName "pkg" "1.0.0"))]) :=
  prefetch_forces_repopulate "/cache" "pkg" "1.0.0" ⟨200, [], [[1], [2]]⟩
    ⟨["pkg"], [("pkg", "1.0.0")], [⟨"pkg", "1.0.0", "pkg-1.0.0.tar.gz", [9]⟩]⟩
    rfl

/-- Claim C7: every endpoint that contacts the upstream — package metadata,
single-version metadata, archive (on a miss), prefetch, and the generic
fallback — answers a transport-level upstream failure with HTTP 502 and
creates no cache entry (the archive and prefetch handlers return the state
unchanged; the metadata and fallback handlers never touch the store at
all, as their types show). -/
theorem transport_failure_502 (cacheD base path name version : String)
    (fault : Fault) (fs : FS) (req : InboundRequest)
    (hmiss : cachedTarFile fs name version = none) :
    api_package base name none = resp502
    ∧ api_package_version base name version none = resp502
    ∧ package_archive cacheD name version none fault fs =
        ⟨resp502, fs, 1⟩
    ∧ admin_prefetch cacheD name version none fault fs = ⟨resp502, fs, 1⟩
    ∧ proxy_fallback path req none = resp502 := by
  refine ⟨rfl, rfl, ?_, rfl, rfl⟩
  simp only [package_archive, hmiss]

/-- Witness for C7 over the empty cache. -/
theorem transport_failure_502_witness :
    api_package "http://proxy" "pkg" none = resp502
    ∧ api_package_version "http://proxy" "pkg" "1.0.0" none = resp502
    ∧ package_archive "/cache" "pkg" "1.0.0" none Fault.ok ⟨[], [], []⟩ =
        ⟨resp502, ⟨[], [], []⟩, 1⟩
    ∧ admin_prefetch "/cache" "pkg" "1.0.0" none Fault.ok ⟨[], [], []⟩ =
        ⟨resp502, ⟨[], [], []⟩, 1⟩
    ∧ proxy_fallback "some/path" ⟨"GET", [], [], []⟩ none = resp502 :=
  transport_failure_502 "/cache" "http://proxy" "some/path" "pkg" "1.0.0"
    Fault.ok ⟨[], [], []⟩ ⟨"GET", [], [], []⟩ rfl

/-- Claim C8: the generic fallback replays the inbound method, query
parameters and body, with the inbound headers minus `host`, and returns the
upstream status and body with `content-encoding`, `transfer-encoding` and
`connection` removed from the response headers and every other response
header kept. -/
theorem fallback_replay (path : String) (req : InboundRequest)
    (r : UpstreamResponse) :
    (fallbackCall path req).method = req.method
    ∧ (fallbackCall path req).params = req.params
    ∧ (fallbackCall path req).body = req.body
    ∧ (∀ kv : String × String, kv ∈ (fallbackCall path req).headers ↔
        kv ∈ req.headers ∧ kv.1.toLower ≠ "host")
    ∧ (proxy_fallback path req (some r)).status = r.status
    ∧ (proxy_fallback path req (some r)).body = Body.raw r.chunks.flatten
    ∧ (∀ kv : String × String,
        kv ∈ (proxy_fallback path req (some r)).headers ↔
          kv ∈ r.headers ∧ kv.1.toLower ∉
            (["content-encoding", "transfer-encoding", "connection"] :
              List String)) := by
  refine ⟨rfl, rfl, rfl, fun kv => ?_, rfl, rfl, fun kv => ?_⟩
  · simp [fallbackCall, List.mem_filter]
  · simp [proxy_fallback, List.mem_filter]

/-- Claim C9 (counterexample): the degraded relay does NOT always have HTTP
status 200: when the population failure is the final rename, the write loop
has fully consumed the upstream stream, the fallback's second `iter_content`
raises `StreamConsumedError`, and the client receives Flask's 500 error
response, not a 200 relay. -/
theorem archive_rename_fail_not_200 :
    (package_archive "/cache" "pkg" "1.0.0"
        (some ⟨200, [("Content-Type", "application/gzip")], [[1], [2]]⟩)
        Fault.renameFail ⟨[], [], []⟩).resp.status = 500
    ∧ (500 : Nat) ≠ 200 :=
  ⟨rfl, by decide⟩

/-- Claim C9 (amended): when cache population fails mid-write — a chunk write
raised, so the upstream stream was not fully consumed — the archive handler
degrades to a relay with HTTP status 200 carrying exactly one header,
`content-type` taken (case-insensitively) from the upstream response and
defaulting to `application/octet-stream`, and unlike the cached-serve paths
it is not sent with an attachment disposition and forwards no other upstream
header.  When population instead fails at the final rename, after the write
loop fully consumed the stream, the attempted relay raises
`StreamConsumedError` on the consumed stream and the client receives Flask's
500 error response. -/
theorem archive_degraded_relay_headers (cacheD name version : String)
    (r : UpstreamResponse) (fault : Fault) (fs : FS)
    (hmiss : cachedTarFile fs name version = none)
    (hs : r.status = 200)
    (hfail : (populate fs name version r.chunks fault).ok = false) :
    ((populate fs name version r.chunks fault).streamDone = false →
      (package_archive cacheD name version (some r) fault fs).resp.status = 200
      ∧ (package_archive cacheD name version (some r) fault fs).resp.headers =
          [("content-type",
            getHeaderD r.headers "content-type" "application/octet-stream")]
      ∧ (package_archive cacheD name version (some r) fault fs).resp.attachment
          = false
      ∧ (r.headers = [] →
          getHeaderD r.headers "content-type" "application/octet-stream" =
            "application/octet-stream"))
    ∧ ((populate fs name version r.chunks fault).streamDone = true →
      (package_archive cacheD name version (some r) fault fs).resp =
        resp500) := by
  simp only [package_archive, hmiss, hs]
  rw [if_neg (by simp : ¬((200 : Nat) ≠ 200)),
    if_neg (by simp [hfail] :
      ¬((populate fs name version r.chunks fault).ok = true))]
  constructor
  · intro hdone
    rw [if_neg (by simp [hdone] :
      ¬((populate fs name version r.chunks fault).streamDone = true))]
    exact ⟨rfl, rfl, rfl, fun h => by rw [h]; rfl⟩
  · intro hdone
    rw [if_pos hdone]

/-- Witness for C9 (amended): a failed first-chunk write over the empty
cache, where the stream is not fully consumed. -/
theorem archive_degraded_relay_headers_witness :
    ((populate ⟨[], [], []⟩ "pkg" "1.0.0" [[1], [2]]
        (Fault.writeFail 0)).streamDone = false →
      (package_archive "/cache" "pkg" "1.0.0"
          (some ⟨200, [("Content-Type", "application/gzip")], [[1], [2]]⟩)
          (Fault.writeFail 0) ⟨[], [], []⟩).resp.status = 200
      ∧ (package_archive "/cache" "pkg" "1.0.0"
          (some ⟨200, [("Content-Type", "application/gzip")], [[1], [2]]⟩)
          (Fault.writeFail 0) ⟨[], [], []⟩).resp.headers =
        [("content-type",
          getHeaderD [("Content-Type", "application/gzip")] "content-type"
            "application/octet-stream")]
      ∧ (package_archive "/cache" "pkg" "1.0.0"
          (some ⟨200, [("Content-Type", "application/gzip")], [[1], [2]]⟩)
          (Fault.writeFail 0) ⟨[], [], []⟩).resp.attachment = false
      ∧ ([(("Content-Type" : String), ("application/gzip" : String))] = [] →
          getHeaderD [("Content-Type", "application/gzip")] "content-type"
            "application/octet-stream" = "application/octet-stream"))
    ∧ ((populate ⟨[], [], []⟩ "pkg" "1.0.0" [[1], [2]]
        (Fault.writeFail 0)).streamDone = true →
      (package_archive "/cache" "pkg" "1.0.0"
          (some ⟨200, [("Content-Type", "application/gzip")], [[1], [2]]⟩)
          (Fault.writeFail 0) ⟨[], [], []⟩).resp = resp500) :=
  archive_degraded_relay_headers "/cache" "pkg" "1.0.0"
    ⟨200, [("Content-Type", "application/gzip")], [[1], [2]]⟩
    (Fault.writeFail 0) ⟨[], [], []⟩ rfl rfl rfl

/-- Claim C10: the single-version metadata endpoint unconditionally sets the
top-level `archive_url` of the returned 200 document to the proxy archive
endpoint URL: the key is created even when absent upstream, any existing
value is replaced without being inspected, and every other field is
unchanged. -/
theorem version_metadata_sets_archive_url (base name version : String)
    (r : MetaResponse) (fields : List (String × Json))
    (hs : r.status = 200) (hj : r.jsonBody = some (Json.obj fields)) :
    api_package_version base name version (some r) =
      { status := 200, headers := [],
        body := Body.json (Json.obj (setKeyList fields "archive_url"
          (Json.str (proxyArchiveUrl base name version)))),
        attachment := false }
    ∧ lookupKey (setKeyList fields "archive_url"
        (Json.str (proxyArchiveUrl base name version))) "archive_url" =
      some (Json.str (proxyArchiveUrl base name version))
    ∧ eraseKeyList (setKeyList fields "archive_url"
        (Json.str (proxyArchiveUrl base name version))) "archive_url" =
      eraseKeyList fields "archive_url" := by
  refine ⟨?_, lookupKey_setKeyList_self _ _ _, eraseKeyList_setKeyList _ _ _⟩
  simp only [api_package_version, hs, hj]
  rw [if_neg (by simp : ¬((200 : Nat) ≠ 200))]

/-- Witness for C10: a 200 document with no `archive_url` field at all gets
one pointing at the proxy. -/
theorem version_metadata_sets_archive_url_witness :
    api_package_version "http://proxy" "pkg" "1.0.0"
        (some ⟨200, [], [], some (Json.obj [("version", Json.str "1.0.0")])⟩) =
      { status := 200, headers := [],
        body := Body.json (Json.obj (setKeyList [("version", Json.str "1.0.0")]
          "archive_url"
          (Json.str (proxyArchiveUrl "http://proxy" "pkg" "1.0.0")))),
        attachment := false }
    ∧ lookupKey (setKeyList [("version", Json.str "1.0.0")] "archive_url"
        (Json.str (proxyArchiveUrl "http://proxy" "pkg" "1.0.0")))
        "archive_url" =
      some (Json.str (proxyArchiveUrl "http://proxy" "pkg" "1.0.0"))
    ∧ eraseKeyList (setKeyList [("version", Json.str "1.0.0")] "archive_url"
        (Json.str (proxyArchiveUrl "http://proxy" "pkg" "1.0.0")))
        "archive_url" =
      eraseKeyList [("version", Json.str "1.0.0")] "archive_url" :=
  version_metadata_sets_archive_url "http://proxy" "pkg" "1.0.0"
    ⟨200, [], [], some (Json.obj [("version", Json.str "1.0.0")])⟩
    [("version", Json.str "1.0.0")] rfl rfl

/-- On a list of entries that are all objects with a non-empty string
`version`, the rewrite loop succeeds and rewrites each entry's
`archive_url`, leaving its other fields unchanged. -/
theorem rewriteEntries_good (base name : String) (entries : List Json)
    (hgood : ∀ e ∈ entries, ∃ f v, e = Json.obj f ∧
      lookupKey f "version" = some (Json.str v) ∧ v ≠ "") :
    ∃ outs : List Json, rewriteEntries base name entries = some outs
      ∧ List.Forall₂ (fun e o =>
          (∀ f v, e = Json.obj f →
            lookupKey f "version" = some (Json.str v) →
            entryArchive o = some (Json.str (proxyArchiveUrl base name v)))
          ∧ eraseEntryArchive o = eraseEntryArchive e) entries outs := by
  induction entries with
  | nil => exact ⟨[], rfl, List.Forall₂.nil⟩
  | cons e es ih =>
    obtain ⟨f, v, he, hver, hv⟩ := hgood e (List.mem_cons_self e es)
    obtain ⟨outs, houts, hfa⟩ :=
      ih (fun x hx => hgood x (List.mem_cons_of_mem e hx))
    subst he
    have hfalsy : jsonFalsy (Json.str v) = false := by
      simp [jsonFalsy, hv]
    have hentry : rewriteEntry base name (Json.obj f) =
        some (Json.obj (setKeyList f "archive_url"
          (Json.str (proxyArchiveUrl base name v)))) := by
      simp only [rewriteEntry, hver, hfalsy, Bool.false_eq_true, if_false]
      rfl
    refine ⟨Json.obj (setKeyList f "archive_url"
        (Json.str (proxyArchiveUrl base name v))) :: outs, ?_,
      List.Forall₂.cons ⟨?_, ?_⟩ hfa⟩
    · simp only [rewriteEntries, hentry, houts, Option.bind_eq_bind,
        Option.some_bind]
      rfl
    · intro f2 v2 hf2 hv2
      have hf : f = f2 := by injection hf2
      subst hf
      rw [hver] at hv2
      have hvv : v = v2 := by
        injection hv2 with h1
        injection h1
      subst hvv
      show lookupKey (setKeyList f "archive_url"
        (Json.str (proxyArchiveUrl base name v))) "archive_url" = _
      rw [lookupKey_setKeyList_self]
    · show Json.obj (eraseKeyList (setKeyList f "archive_url"
        (Json.str (proxyArchiveUrl base name v))) "archive_url") = _
      rw [eraseKeyList_setKeyList]
      rfl

/-- Claim C4 (counterexample): a document whose single version entry carries
an archive link but an empty-string `version` is returned entirely
unchanged — its archive link `"orig"` is not rewritten to the proxy URL —
because the code skips any entry whose version value is falsy. -/
theorem metadata_rewrite_skips_falsy_version :
    api_package_json "http://proxy" "pkg"
        (Json.obj [("versions", Json.arr
          [Json.obj [("version", Json.str ""),
            ("archive_url", Json.str "orig")]])]) =
      some (Json.obj [("versions", Json.arr
        [Json.obj [("version", Json.str ""),
          ("archive_url", Json.str "orig")]])])
    ∧ "orig" ≠ proxyArchiveUrl "http://proxy" "pkg" "" :=
  ⟨rfl, by decide⟩

/-- Claim C4 (amended): for every upstream package metadata document whose
version entries are all objects carrying a non-empty string `version` field,
the rewritten document has exactly N archive links, one per entry, each set
to the proxy archive endpoint URL for that entry's version, and everything
else is unchanged: each entry minus its archive link, and the document minus
the `versions` field, are deeply equal to the originals.  (Entries whose
`version` field is missing or falsy — e.g. the empty string — are left
entirely unchanged by the code, including their original archive link.) -/
theorem metadata_rewrite (base name : String)
    (fields : List (String × Json)) (entries : List Json)
    (hv : lookupKey fields "versions" = some (Json.arr entries))
    (hgood : ∀ e ∈ entries, ∃ f v, e = Json.obj f ∧
      lookupKey f "version" = some (Json.str v) ∧ v ≠ "") :
    ∃ outs : List Json,
      api_package_json base name (Json.obj fields) =
        some (Json.obj (setKeyList fields "versions" (Json.arr outs)))
      ∧ outs.length = entries.length
      ∧ List.Forall₂ (fun e o =>
          (∀ f v, e = Json.obj f →
            lookupKey f "version" = some (Json.str v) →
            entryArchive o = some (Json.str (proxyArchiveUrl base name v)))
          ∧ eraseEntryArchive o = eraseEntryArchive e) entries outs
      ∧ eraseKeyList (setKeyList fields "versions" (Json.arr outs))
          "versions" = eraseKeyList fields "versions"
      ∧ (∀ r : MetaResponse, r.status = 200 →
          r.jsonBody = some (Json.obj fields) →
          api_package base name (some r) =
            { status := 200, headers := [],
              body := Body.json (Json.obj (setKeyList fields "versions"
                (Json.arr outs))),
              attachment := false }) := by
  obtain ⟨outs, houts, hfa⟩ := rewriteEntries_good base name entries hgood
  have hmain : api_package_json base name (Json.obj fields) =
      some (Json.obj (setKeyList fields "versions" (Json.arr outs))) := by
    simp only [api_package_json, hv, houts]
  refine ⟨outs, hmain, (List.Forall₂.length_eq hfa).symm, hfa,
    eraseKeyList_setKeyList _ _ _, fun r hs hj => ?_⟩
  simp only [api_package, hs, hj, hmain]
  rw [if_neg (by simp : ¬((200 : Nat) ≠ 200))]

/-- Witness for C4 (amended): a two-version document over concrete data. -/
theorem metadata_rewrite_witness :
    ∃ outs : List Json,
      api_package_json "http://proxy" "pkg"
          (Json.obj [("name", Json.str "pkg"),
            ("versions", Json.arr
              [Json.obj [("version", Json.str "1.0.0"),
                ("archive_url", Json.str "u1")],
               Json.obj [("version", Json.str "2.0.0"),
                ("archive_url", Json.str "u2")]])]) =
        some (Json.obj (setKeyList [("name", Json.str "pkg"),
          ("versions", Json.arr
            [Json.obj [("version", Json.str "1.0.0"),
              ("archive_url", Json.str "u1")],
             Json.obj [("version", Json.str "2.0.0"),
              ("archive_url", Json.str "u2")]])] "versions" (Json.arr outs)))
      ∧ outs.length =
          ([Json.obj [("version", Json.str "1.0.0"),
              ("archive_url", Json.str "u1")],
            Json.obj [("version", Json.str "2.0.0"),
              ("archive_url", Json.str "u2")]] : List Json).length
      ∧ List.Forall₂ (fun e o =>
          (∀ f v, e = Json.obj f →
            lookupKey f "version" = some (Json.str v) →
            entryArchive o =
              some (Json.str (proxyArchiveUrl "http://proxy" "pkg" v)))
          ∧ eraseEntryArchive o = eraseEntryArchive e)
          [Json.obj [("version", Json.str "1.0.0"),
            ("archive_url", Json.str "u1")],
           Json.obj [("version", Json.str "2.0.0"),
            ("archive_url", Json.str "u2")]] outs
      ∧ eraseKeyList (setKeyList [("name", Json.str "pkg"),
          ("versions", Json.arr
            [Json.obj [("version", Json.str "1.0.0"),
              ("archive_url", Json.str "u1")],
             Json.obj [("version", Json.str "2.0.0"),
              ("archive_url", Json.str "u2")]])] "versions" (Json.arr outs))
          "versions" =
        eraseKeyList [("name", Json.str "pkg"),
          ("versions", Json.arr
            [Json.obj [("version", Json.str "1.0.0"),
              ("archive_url", Json.str "u1")],
             Json.obj [("version", Json.str "2.0.0"),
              ("archive_url", Json.str "u2")]])] "versions"
      ∧ (∀ r : MetaResponse, r.status = 200 →
          r.jsonBody = some (Json.obj [("name", Json.str "pkg"),
            ("versions", Json.arr
              [Json.obj [("version", Json.str "1.0.0"),
                ("archive_url", Json.str "u1")],
               Json.obj [("version", Json.str "2.0.0"),
                ("archive_url", Json.str "u2")]])]) →
          api_package "http://proxy" "pkg" (some r) =
            { status := 200, headers := [],
              body := Body.json (Json.obj (setKeyList
                [("name", Json.str "pkg"),
                 ("versions", Json.arr
                  [Json.obj [("version", Json.str "1.0.0"),
                    ("archive_url", Json.str "u1")],
                   Json.obj [("version", Json.str "2.0.0"),
                    ("archive_url", Json.str "u2")]])] "versions"
                (Json.arr outs))),
              attachment := false }) := by
  apply metadata_rewrite "http://proxy" "pkg"
  · rfl
  · intro e he
    simp only [List.mem_cons, List.not_mem_nil, or_false] at he
    rcases he with h | h <;> subst h
    · exact ⟨_, "1.0.0", rfl, rfl, by decide⟩
    · exact ⟨_, "2.0.0", rfl, rfl, by decide⟩

end PubProxy
